import Mathlib

/-!
Verification development for the SpaceNavigator Orbit Propagation & Satellite
Visualization Engine.

The definitions below are a shallow embedding of the engine's source:

* `classifyOrbit` embeds the `classifyOrbit` function of
  `src/lib/components/SatelliteGlobe.svelte`.  JavaScript `number` arithmetic
  is modelled by real numbers; `Math.cbrt x` is `x ^ (1/3 : ℝ)`.  The
  `isNaN(periodMinutes) || isNaN(altitudeKm)` guard of the source has no
  counterpart here: real numbers contain no NaN, and once
  `meanMotionRadPerMin > 0` the JavaScript computation cannot produce NaN
  either (quotients of finite positive numbers and their cube roots).
* `parseFirstNTleData` embeds the TLE parser of
  `src/routes/api/tle/+server.ts`.  JavaScript strings are modelled as
  `List Char`; `text.trim()`, `split(/\r?\n/)`, `startsWith`,
  `substring(2, 7)` and the regex `^\d+$` are embedded by the helper
  functions below them.
* `applyFilterSat` / `updateSatellitePosition` / `tickSat` embed the
  per-entity body of `applyFilters` and `updateSatellitePositions` of
  `SatelliteGlobe.svelte`, and `animate`'s per-tick order (filters first,
  then propagation).  Opacities are exact rationals (`THREE.MathUtils.lerp`
  is linear interpolation, exactly representable over ℚ).  The result of
  `satellite.propagate`/`eciToGeodetic` for one entity at one instant is an
  oracle value of type `PropResult`.  The hazard recoloring block
  (lines 363-369 of the component) is purely visual, is not the subject of
  any property below, and is not modelled.
-/

/-- Orbit classification labels, from the `OrbitClassification` union type of
`SatelliteGlobe.svelte`. -/
inductive OrbitClassification where
  | LEO
  | MEO
  | GEO
  | HEO
  | SSO
  | Unknown
deriving DecidableEq, Repr

/-- Constant `REAL_EARTH_RADIUS_KM = 6371` of `SatelliteGlobe.svelte`. -/
noncomputable def REAL_EARTH_RADIUS_KM : ℝ := 6371

/-- Constant `EARTH_RADIUS_SCENE = 5` of `SatelliteGlobe.svelte`. -/
noncomputable def EARTH_RADIUS_SCENE : ℝ := 5

/-- Constant `SCALE_FACTOR = REAL_EARTH_RADIUS_KM / EARTH_RADIUS_SCENE`. -/
noncomputable def SCALE_FACTOR : ℝ := REAL_EARTH_RADIUS_KM / EARTH_RADIUS_SCENE

/-- Gravitational parameter `mu = 398600.4418` km³/s² used by `classifyOrbit`. -/
noncomputable def muEarth : ℝ := 398600.4418

/-- The `periodMinutes = (2 * Math.PI) / meanMotionRadPerMin` computation of
`classifyOrbit`. -/
noncomputable def periodMinutes (meanMotionRadPerMin : ℝ) : ℝ :=
  (2 * Real.pi) / meanMotionRadPerMin

/-- The `semiMajorAxisKm = Math.cbrt(mu / (meanMotionRadPerSec * meanMotionRadPerSec))`
computation of `classifyOrbit`, with `meanMotionRadPerSec = meanMotionRadPerMin / 60`. -/
noncomputable def semiMajorAxisKm (meanMotionRadPerMin : ℝ) : ℝ :=
  (muEarth / ((meanMotionRadPerMin / 60) * (meanMotionRadPerMin / 60))) ^ ((1 : ℝ) / 3)

/-- The `altitudeKm = semiMajorAxisKm - REAL_EARTH_RADIUS_KM` computation of
`classifyOrbit`. -/
noncomputable def altitudeKm (meanMotionRadPerMin : ℝ) : ℝ :=
  semiMajorAxisKm meanMotionRadPerMin - REAL_EARTH_RADIUS_KM

/-- The `inclinationDeg = satrec.inclo * (180 / Math.PI)` computation of
`classifyOrbit`; the argument is the inclination in radians. -/
noncomputable def inclinationDeg (incloRad : ℝ) : ℝ :=
  incloRad * (180 / Real.pi)

/-- The GEO branch condition of `classifyOrbit`:
`Math.abs(periodMinutes - 1436.1) < 30 && eccentricity < 0.1 && inclinationDeg < 5`. -/
noncomputable def geoCond (meanMotionRadPerMin ecco incloRad : ℝ) : Prop :=
  |periodMinutes meanMotionRadPerMin - 1436.1| < 30 ∧ ecco < 0.1 ∧
    inclinationDeg incloRad < 5

/-- The SSO branch condition of `classifyOrbit`:
`altitudeKm < 2000 && Math.abs(inclinationDeg - 98) < 5`. -/
noncomputable def ssoCond (meanMotionRadPerMin incloRad : ℝ) : Prop :=
  altitudeKm meanMotionRadPerMin < 2000 ∧ |inclinationDeg incloRad - 98| < 5

section
open Classical

/-- The `classifyOrbit` function of `SatelliteGlobe.svelte` (lines 142-168).
Inputs are `satrec.no` (mean motion, rad/min), `satrec.ecco` (eccentricity)
and `satrec.inclo` (inclination, radians).  The branch structure follows the
source exactly; the `isNaN` guard is unrepresentable over ℝ (see the module
comment). -/
noncomputable def classifyOrbit (meanMotionRadPerMin ecco incloRad : ℝ) :
    OrbitClassification :=
  if meanMotionRadPerMin ≤ 0 then OrbitClassification.Unknown
  else if 0.25 < ecco then OrbitClassification.HEO
  else if geoCond meanMotionRadPerMin ecco incloRad then OrbitClassification.GEO
  else if ssoCond meanMotionRadPerMin incloRad then OrbitClassification.SSO
  else if altitudeKm meanMotionRadPerMin < 2000 then OrbitClassification.LEO
  else if 2000 ≤ altitudeKm meanMotionRadPerMin ∧
      altitudeKm meanMotionRadPerMin < 35700 then OrbitClassification.MEO
  else if 35700 ≤ altitudeKm meanMotionRadPerMin then OrbitClassification.MEO
  else OrbitClassification.Unknown

end

/-- Scene coordinates from geodetic coordinates — the transform
`x = r cos(lat) cos(lon), y = r sin(lat), z = -r cos(lat) sin(lon)` with
`r = EARTH_RADIUS_SCENE + heightKm / SCALE_FACTOR`, used by both
`calculateTrackPoints` and `updateSatellitePositions` in
`SatelliteGlobe.svelte`. -/
noncomputable def sceneFromGeodetic (latRad lonRad heightKm : ℝ) : ℝ × ℝ × ℝ :=
  let r := EARTH_RADIUS_SCENE + heightKm / SCALE_FACTOR
  (r * Real.cos latRad * Real.cos lonRad,
   r * Real.sin latRad,
   -r * Real.cos latRad * Real.sin lonRad)

/-- Whitespace recognised by JavaScript `String.prototype.trim` (ASCII part;
the TLE inputs at hand contain no exotic Unicode spaces). -/
def jsIsWhitespace (c : Char) : Bool :=
  c = ' ' || c = '\t' || c = '\n' || c = '\r' || c = '\x0b' || c = '\x0c'

/-- JavaScript `s.trim()` over a `List Char` string model. -/
def jsTrim (s : List Char) : List Char :=
  ((s.dropWhile jsIsWhitespace).reverse.dropWhile jsIsWhitespace).reverse

/-- Splitting accumulator for `jsSplitLines`: cuts the character list at every
`'\n'`. -/
def splitNewlineAux : List Char → List Char → List (List Char)
  | [], cur => [cur.reverse]
  | c :: rest, cur =>
      if c = '\n' then cur.reverse :: splitNewlineAux rest []
      else splitNewlineAux rest (c :: cur)

/-- Removes a single trailing `'\r'` from a piece produced by cutting at
`'\n'`; together with `splitNewlineAux` this realises `split(/\r?\n/)` on
text whose last character is not `'\r'` (guaranteed after `trim`). -/
def dropTrailingCR (s : List Char) : List Char :=
  match s.reverse with
  | '\r' :: t => t.reverse
  | _ => s

/-- The `tleText.trim().split(/\r?\n/)` computation of `parseFirstNTleData`. -/
def jsSplitLines (text : List Char) : List (List Char) :=
  (splitNewlineAux (jsTrim text) []).map dropTrailingCR

/-- The `TleData` record of `src/routes/api/tle/+server.ts`. -/
structure TleData where
  name : List Char
  tle1 : List Char
  tle2 : List Char
  noradId : List Char
deriving DecidableEq, Repr

/-- The loop body of `parseFirstNTleData` (lines 601-651 of
`src/routes/api/tle/+server.ts`).  The loop steps 3 lines at a time while
`i + 2 < lines.length` and breaks when `satellites.length >= count`; that
break is rendered here as the remaining capacity `count` reaching `0`. -/
def parseTleGroups : List (List Char) → Nat → List TleData
  | nameRaw :: l1Raw :: l2Raw :: rest, count =>
      if count = 0 then []
      else
        let nameLine := jsTrim nameRaw
        let line1 := jsTrim l1Raw
        let line2 := jsTrim l2Raw
        if !nameLine.isEmpty && !line1.isEmpty && !line2.isEmpty &&
            ['1', ' '].isPrefixOf line1 && ['2', ' '].isPrefixOf line2 then
          let noradIdFromLine1 := jsTrim ((line1.drop 2).take 5)
          if noradIdFromLine1.length > 0 && noradIdFromLine1.all Char.isDigit then
            ⟨nameLine, line1, line2, noradIdFromLine1⟩ ::
              parseTleGroups rest (count - 1)
          else
            parseTleGroups rest count
        else
          parseTleGroups rest count
  | _, _ => []

/-- Uncapped variant of `parseTleGroups`: the same scan with no count limit.
It is used to express that the capped parse returns an order-preserving
prefix of the full scan. -/
def parseTleGroupsAll : List (List Char) → List TleData
  | nameRaw :: l1Raw :: l2Raw :: rest =>
      let nameLine := jsTrim nameRaw
      let line1 := jsTrim l1Raw
      let line2 := jsTrim l2Raw
      if !nameLine.isEmpty && !line1.isEmpty && !line2.isEmpty &&
          ['1', ' '].isPrefixOf line1 && ['2', ' '].isPrefixOf line2 then
        let noradIdFromLine1 := jsTrim ((line1.drop 2).take 5)
        if noradIdFromLine1.length > 0 && noradIdFromLine1.all Char.isDigit then
          ⟨nameLine, line1, line2, noradIdFromLine1⟩ :: parseTleGroupsAll rest
        else
          parseTleGroupsAll rest
      else
        parseTleGroupsAll rest
  | _ => []

/-- The `parseFirstNTleData(tleText, count)` function of
`src/routes/api/tle/+server.ts`: split the trimmed text into lines and scan
them in groups of three. -/
def parseFirstNTleData (tleText : List Char) (count : Nat) : List TleData :=
  parseTleGroups (jsSplitLines tleText) count

/-- The record invariants promised for every parsed TLE record: all three
stored lines are (trimmed and) non-empty, `tle1` starts with `"1 "`, `tle2`
starts with `"2 "`, and the stored catalog id is non-empty and all digits. -/
def validTleRecord (r : TleData) : Prop :=
  r.name ≠ [] ∧ r.tle1 ≠ [] ∧ r.tle2 ≠ [] ∧
  ['1', ' '].isPrefixOf r.tle1 = true ∧ ['2', ' '].isPrefixOf r.tle2 = true ∧
  r.noradId ≠ [] ∧ r.noradId.all Char.isDigit = true

/-- A raw three-line group (name line, line 1, line 2) before trimming. -/
abbrev TleGroup := List Char × List Char × List Char

/-- A group is well formed when the parser's validity checks all pass on its
trimmed lines. -/
abbrev wellFormedGroup (g : TleGroup) : Prop :=
  let nameLine := jsTrim g.1
  let line1 := jsTrim g.2.1
  let line2 := jsTrim g.2.2
  nameLine ≠ [] ∧ line1 ≠ [] ∧ line2 ≠ [] ∧
  ['1', ' '].isPrefixOf line1 = true ∧ ['2', ' '].isPrefixOf line2 = true ∧
  (jsTrim ((line1.drop 2).take 5)).length > 0 ∧
  (jsTrim ((line1.drop 2).take 5)).all Char.isDigit = true

/-- The record a well-formed group parses to. -/
def groupRecord (g : TleGroup) : TleData :=
  ⟨jsTrim g.1, jsTrim g.2.1, jsTrim g.2.2, jsTrim (((jsTrim g.2.1).drop 2).take 5)⟩

/-- Flattens a list of three-line groups into the line list the parser scans. -/
def flattenGroups (gs : List TleGroup) : List (List Char) :=
  gs.flatMap (fun g => [g.1, g.2.1, g.2.2])

/-- A concrete well-formed TLE group (ISS). -/
def g0 : TleGroup :=
  ("ISS (ZARYA)".toList, "1 25544U 98067A".toList, "2 25544  51.6400".toList)

/-- Satellite category, from the `SatelliteDetails.type` union of
`src/lib/satellite-info.ts` (`'ISS' | 'Telescope' | 'Earth Observation' |
'Weather' | 'Communication' | 'Navigation' | 'Unknown'`). -/
inductive SatType where
  | ISS
  | Telescope
  | EarthObservation
  | Weather
  | Communication
  | Navigation
  | Unknown
deriving DecidableEq, Repr

/-- Orbit filter values, from the `OrbitFilter` union of
`SatelliteFilter.svelte` (`'ALL' | 'LEO' | 'MEO' | 'GEO' | 'HEO' | 'SSO' |
'OTHER'`). -/
inductive OrbitFilter where
  | ALL
  | LEO
  | MEO
  | GEO
  | HEO
  | SSO
  | OTHER
deriving DecidableEq, Repr

/-- Category filter values, from the `TypeFilter` union of
`SatelliteFilter.svelte` (`'ALL' | 'ISS' | 'OBSERVATION' | 'CAMERA'`). -/
inductive TypeFilter where
  | ALL
  | ISS
  | OBSERVATION
  | CAMERA
deriving DecidableEq, Repr

/-- The TypeScript string comparison `sat.orbitType === orbitF` between an
`OrbitClassification` value and an `OrbitFilter` value: equal exactly when
both are the same orbit-class literal (the classification `Unknown` matches
no filter literal, and the filter literals `ALL`/`OTHER` never occur as
classifications). -/
def orbitClassMatchesFilter (oc : OrbitClassification) (f : OrbitFilter) : Bool :=
  match oc, f with
  | .LEO, .LEO => true
  | .MEO, .MEO => true
  | .GEO, .GEO => true
  | .HEO, .HEO => true
  | .SSO, .SSO => true
  | _, _ => false

/-- Per-entity state of a `SatelliteObject` of `SatelliteGlobe.svelte`,
restricted to the fields the verified properties are about.  `meshOpacity`
and `meshVisible` stand for `(sat.mesh.material as MeshBasicMaterial).opacity`
and `sat.mesh.visible`; `hasTrack` for `sat.trackLine !== undefined`;
`position` stores the geodetic triple `(latitude, longitude, heightKm)` from
which `sat.mesh.position` is obtained via `sceneFromGeodetic`.  There is no
`decayed` field: the component itself keeps no such flag. -/
structure SatState where
  orbitType : OrbitClassification
  satType : SatType
  hasCamera : Bool
  isVisible : Bool
  meshOpacity : ℚ
  meshVisible : Bool
  hasTrack : Bool
  trackOpacity : ℚ
  trackVisible : Bool
  currentLatRad : Option ℚ
  currentLonRad : Option ℚ
  position : Option (ℚ × ℚ × ℚ)
deriving DecidableEq, Repr

/-- `THREE.MathUtils.lerp(x, y, t) = (1 - t) * x + t * y`. -/
def lerp (x y t : ℚ) : ℚ := (1 - t) * x + t * y

/-- The orbit-filter match of `applyFilters` (lines 176-182 of
`SatelliteGlobe.svelte`). -/
def orbitMatch (sat : SatState) (orbitF : OrbitFilter) : Bool :=
  if orbitF = .ALL then true
  else if orbitF = .OTHER then sat.orbitType = OrbitClassification.Unknown
  else orbitClassMatchesFilter sat.orbitType orbitF

/-- The category-filter match of `applyFilters` (lines 183-191 of
`SatelliteGlobe.svelte`).  In the source `typeMatch` is initialised `false`
and only the four listed filter values set it, so the final `else` is
unreachable. -/
def typeMatch (sat : SatState) (typeF : TypeFilter) : Bool :=
  if typeF = .ALL then true
  else if typeF = .ISS then sat.satType = SatType.ISS
  else if typeF = .OBSERVATION then sat.satType = SatType.EarthObservation
  else if typeF = .CAMERA then sat.hasCamera
  else false

/-- The per-entity body of `applyFilters` (lines 173-216 of
`SatelliteGlobe.svelte`): recompute `isVisible` from the two filters, lerp
the mesh opacity toward `1.0`/`0.0` and the track opacity toward `0.4`/`0.0`
with `lerpFactor = 0.1`, and show the mesh/track exactly when the new
opacity exceeds `0.01`.  The track branch runs only when the entity has a
track line. -/
def applyFilterSat (orbitF : OrbitFilter) (typeF : TypeFilter) (sat : SatState) :
    SatState :=
  let vis := orbitMatch sat orbitF && typeMatch sat typeF
  let targetMeshOpacity : ℚ := if vis then 1.0 else 0.0
  let targetTrackOpacity : ℚ := if vis then 0.4 else 0.0
  let lerpFactor : ℚ := 0.1
  let newMeshOpacity := lerp sat.meshOpacity targetMeshOpacity lerpFactor
  let newTrackOpacity :=
    if sat.hasTrack then lerp sat.trackOpacity targetTrackOpacity lerpFactor
    else sat.trackOpacity
  { sat with
    isVisible := vis
    meshOpacity := newMeshOpacity
    meshVisible := decide (newMeshOpacity > 0.01)
    trackOpacity := newTrackOpacity
    trackVisible :=
      if sat.hasTrack then decide (newTrackOpacity > 0.01) else sat.trackVisible }

/-- The `applyFilters` pass over the whole registry (its early return on an
empty list coincides with mapping over the empty list). -/
def applyFilters (sats : List SatState) (orbitF : OrbitFilter) (typeF : TypeFilter) :
    List SatState :=
  sats.map (applyFilterSat orbitF typeF)

/-- Outcome of `satellite.propagate` + `eciToGeodetic` for one entity at one
instant, as observed by `updateSatellitePositions`:
a geodetic position, a falsy `posVel.position` (early return), an exception
whose message mentions decay, or any other exception. -/
inductive PropResult where
  | success (latRad lonRad heightKm : ℚ)
  | nullPosition
  | decayError
  | otherError
deriving DecidableEq, Repr

/-- The guard of `updateSatellitePositions` (line 348): the body — and hence
the call to `satellite.propagate` — runs exactly when the entity passed the
filter (`sat.isVisible`) and its mesh is shown (`sat.mesh.visible`). -/
def propagationAttempted (sat : SatState) : Bool :=
  sat.isVisible && sat.meshVisible

/-- The per-entity body of `updateSatellitePositions` (lines 347-385 of
`SatelliteGlobe.svelte`), with the propagation outcome supplied as an
oracle.  Entities failing the guard are returned unchanged (skipped).  On
success, `currentLatRad`/`currentLonRad` and the mesh position are updated.
On a decay exception or any other exception the mesh and track are hidden
and `isVisible` is cleared — nothing else is recorded. -/
def updateSatellitePosition (result : PropResult) (sat : SatState) : SatState :=
  if !sat.isVisible || !sat.meshVisible then sat
  else
    match result with
    | .success lat lon h =>
        { sat with
          currentLatRad := some lat
          currentLonRad := some lon
          position := some (lat, lon, h) }
    | .nullPosition => sat
    | .decayError =>
        { sat with
          meshVisible := false
          trackVisible := if sat.hasTrack then false else sat.trackVisible
          isVisible := false }
    | .otherError =>
        { sat with
          meshVisible := false
          trackVisible := if sat.hasTrack then false else sat.trackVisible
          isVisible := false }

/-- One animation tick for one entity, in the order of `animate`
(lines 394-396): `applyFilters` first, then `updateSatellitePositions`. -/
def tickSat (orbitF : OrbitFilter) (typeF : TypeFilter) (result : PropResult)
    (sat : SatState) : SatState :=
  updateSatellitePosition result (applyFilterSat orbitF typeF sat)

/-- The spec's per-entity orbit match (§4.5): `orbitMatch = (orbitFilter ==
ALL) OR (entity.orbitClass == orbitFilter) OR (orbitFilter == OTHER AND
entity.orbitClass == Unknown)`. -/
def orbitMatchSpec (sat : SatState) (orbitF : OrbitFilter) : Bool :=
  orbitF = OrbitFilter.ALL || orbitClassMatchesFilter sat.orbitType orbitF ||
    (orbitF = OrbitFilter.OTHER && sat.orbitType = OrbitClassification.Unknown)

/-- The spec's per-entity category match, analogous to `orbitMatchSpec`
against `entity.category` / `entity.hasCamera`. -/
def typeMatchSpec (sat : SatState) (typeF : TypeFilter) : Bool :=
  typeF = TypeFilter.ALL ||
    (typeF = TypeFilter.ISS && sat.satType = SatType.ISS) ||
    (typeF = TypeFilter.OBSERVATION && sat.satType = SatType.EarthObservation) ||
    (typeF = TypeFilter.CAMERA && sat.hasCamera)

/-- The opacity smoothing step of `applyFilters`:
`opacity = THREE.MathUtils.lerp(opacity, target, 0.1)`. -/
def opacityStep (target opacity : ℚ) : ℚ := lerp opacity target 0.1

/-- Iterating the opacity smoothing step a given number of ticks with a
constant target. -/
def opacityIter (target : ℚ) : Nat → ℚ → ℚ
  | 0, opacity => opacity
  | k + 1, opacity => opacityIter target k (opacityStep target opacity)

/-- The picking raycast of `onMouseMove`/`onClick` (lines 430-468 of
`SatelliteGlobe.svelte`): candidates are exactly the meshes with
`mesh.visible` (`localSatelliteMeshes.filter((m) => m.visible)`); among the
candidates the first one the ray geometrically hits (the oracle `hit`) is
resolved back to its owning entity. -/
def raycastPick (hit : SatState → Bool) (sats : List SatState) : Option SatState :=
  (sats.filter (fun s => s.meshVisible)).find? hit

/-- The `onClick` handler: a `satelliteclick` event carrying the hit entity
is dispatched exactly when the raycast over the visible meshes hits
something (`intersects.length > 0`); no event is emitted on an empty
click. -/
def onClick (hit : SatState → Bool) (sats : List SatState) : Option SatState :=
  raycastPick hit sats

/-- A freshly initialised entity as built in `init` (lines 547-600):
material opacity `1`, track opacity `0.4`, `isVisible: true`, no positions
recorded yet. -/
def sampleSat : SatState :=
  { orbitType := OrbitClassification.LEO
    satType := SatType.Unknown
    hasCamera := false
    isVisible := true
    meshOpacity := 1
    meshVisible := true
    hasTrack := true
    trackOpacity := 0.4
    trackVisible := true
    currentLatRad := none
    currentLonRad := none
    position := none }

/-- An entity whose mesh opacity has been lerped down to `0.03` by a filter
pass that hides it (`0.9 * (1/30) = 3/100`): below the spec's claimed `0.05`
epsilon, yet its mesh is still flagged visible (`0.03 > 0.01`). -/
def dimSat : SatState :=
  applyFilterSat OrbitFilter.GEO TypeFilter.ALL
    { sampleSat with meshOpacity := 1 / 30 }

/-- C4: for mean motion > 0 and eccentricity ≤ 0.25, `classifyOrbit` applies
GEO, then SSO, then LEO, then MEO (for all altitudes ≥ 2000 km, including
≥ 35700 km), first match winning in this order. -/
theorem classifyOrbit_priority (n e i : ℝ) (hn : 0 < n) (he : e ≤ 0.25) :
    (geoCond n e i → classifyOrbit n e i = OrbitClassification.GEO) ∧
    (¬geoCond n e i → ssoCond n i → classifyOrbit n e i = OrbitClassification.SSO) ∧
    (¬geoCond n e i → ¬ssoCond n i → altitudeKm n < 2000 →
      classifyOrbit n e i = OrbitClassification.LEO) ∧
    (¬geoCond n e i → 2000 ≤ altitudeKm n →
      classifyOrbit n e i = OrbitClassification.MEO) := by
  have hn' : ¬n ≤ 0 := not_le.mpr hn
  have he' : ¬(0.25 : ℝ) < e := not_lt.mpr he
  refine ⟨?_, ?_, ?_, ?_⟩
  · intro hgeo
    simp only [classifyOrbit]
    rw [if_neg hn', if_neg he', if_pos hgeo]
  · intro hngeo hsso
    simp only [classifyOrbit]
    rw [if_neg hn', if_neg he', if_neg hngeo, if_pos hsso]
  · intro hngeo hnsso halt
    simp only [classifyOrbit]
    rw [if_neg hn', if_neg he', if_neg hngeo, if_neg hnsso, if_pos halt]
  · intro hngeo halt
    have hnsso : ¬ssoCond n i := fun hs => absurd hs.1 (not_lt.mpr halt)
    have hnleo : ¬altitudeKm n < 2000 := not_lt.mpr halt
    by_cases hm : altitudeKm n < 35700
    · simp only [classifyOrbit]
      rw [if_neg hn', if_neg he', if_neg hngeo, if_neg hnsso, if_neg hnleo,
        if_pos ⟨halt, hm⟩]
    · simp only [classifyOrbit]
      rw [if_neg hn', if_neg he', if_neg hngeo, if_neg hnsso, if_neg hnleo,
        if_neg (fun hc => absurd hc.2 hm), if_pos (le_of_not_lt hm)]

/-- Witness for C4 at mean motion 1 rad/min, eccentricity 0, inclination 0. -/
theorem classifyOrbit_priority_witness :
    0 < (1 : ℝ) ∧ (0 : ℝ) ≤ 0.25 ∧
    ((geoCond 1 0 0 → classifyOrbit 1 0 0 = OrbitClassification.GEO) ∧
     (¬geoCond 1 0 0 → ssoCond 1 0 → classifyOrbit 1 0 0 = OrbitClassification.SSO) ∧
     (¬geoCond 1 0 0 → ¬ssoCond 1 0 → altitudeKm 1 < 2000 →
       classifyOrbit 1 0 0 = OrbitClassification.LEO) ∧
     (¬geoCond 1 0 0 → 2000 ≤ altitudeKm 1 →
       classifyOrbit 1 0 0 = OrbitClassification.MEO)) :=
  ⟨by norm_num, by norm_num, classifyOrbit_priority 1 0 0 (by norm_num) (by norm_num)⟩

/-- C5 counterexample: with mean motion 0 ("any mean motion" per the claim)
and eccentricity 0.3, `classifyOrbit` returns `Unknown`, not `HEO`. -/
theorem classifyOrbit_heo_cex :
    classifyOrbit 0 0.3 0 = OrbitClassification.Unknown ∧
    classifyOrbit 0 0.3 0 ≠ OrbitClassification.HEO := by
  have h : classifyOrbit 0 0.3 0 = OrbitClassification.Unknown := by
    simp only [classifyOrbit]
    rw [if_pos le_rfl]
  exact ⟨h, by rw [h]; decide⟩

/-- C5 amended: for strictly positive mean motion, eccentricity > 0.25 forces
`HEO` regardless of the other parameters. -/
theorem classifyOrbit_heo_amended (n e i : ℝ) (hn : 0 < n) (he : 0.25 < e) :
    classifyOrbit n e i = OrbitClassification.HEO := by
  simp only [classifyOrbit]
  rw [if_neg (not_le.mpr hn), if_pos he]

/-- Witness for the amended C5 at mean motion 1, eccentricity 0.3. -/
theorem classifyOrbit_heo_witness :
    0 < (1 : ℝ) ∧ (0.25 : ℝ) < 0.3 ∧
    classifyOrbit 1 0.3 0 = OrbitClassification.HEO :=
  ⟨by norm_num, by norm_num, classifyOrbit_heo_amended 1 0.3 0 (by norm_num) (by norm_num)⟩

/-- C10: with strictly positive mean motion the trailing `Unknown` branch of
`classifyOrbit` is unreachable — the altitude comparisons cover all cases. -/
theorem classifyOrbit_ne_unknown (n e i : ℝ) (hn : 0 < n) :
    classifyOrbit n e i ≠ OrbitClassification.Unknown := by
  simp only [classifyOrbit]
  rw [if_neg (not_le.mpr hn)]
  split_ifs with h1 h2 h3 h4 h5 h6
  · decide
  · decide
  · decide
  · decide
  · decide
  · decide
  · intro _
    push_neg at h4 h5 h6
    exact absurd (h5 h4) (not_le.mpr h6)

/-- Witness for C10 at mean motion 1. -/
theorem classifyOrbit_ne_unknown_witness :
    0 < (1 : ℝ) ∧ classifyOrbit 1 0 0 ≠ OrbitClassification.Unknown :=
  ⟨by norm_num, classifyOrbit_ne_unknown 1 0 0 (by norm_num)⟩

/-- A list whose `isEmpty` test fails is not the empty list. -/
theorem ne_nil_of_not_isEmpty {α : Type} {l : List α} (h : (!l.isEmpty) = true) :
    l ≠ [] := by
  cases l with
  | nil => simp at h
  | cons a t => simp

/-- A non-empty list has a true non-emptiness test. -/
theorem not_isEmpty_of_ne_nil {α : Type} {l : List α} (h : l ≠ []) :
    (!l.isEmpty) = true := by
  cases l with
  | nil => exact absurd rfl h
  | cons a t => rfl

/-- Scanning fewer than three lines yields no record, for any capacity. -/
theorem parseTleGroups_short (lines : List (List Char)) (count : Nat)
    (h : lines.length < 3) : parseTleGroups lines count = [] := by
  match lines with
  | [] => rfl
  | [a] => rfl
  | [a, b] => rfl
  | a :: b :: c :: rest => simp only [List.length_cons] at h; omega

/-- The capped scan is the `count`-prefix of the uncapped scan. -/
theorem parseTleGroups_eq_take :
    ∀ (lines : List (List Char)) (count : Nat),
      parseTleGroups lines count = (parseTleGroupsAll lines).take count
  | [], count => by simp [parseTleGroups, parseTleGroupsAll]
  | [a], count => by simp [parseTleGroups, parseTleGroupsAll]
  | [a, b], count => by simp [parseTleGroups, parseTleGroupsAll]
  | nameRaw :: l1Raw :: l2Raw :: rest, count => by
      simp only [parseTleGroups, parseTleGroupsAll]
      cases count with
      | zero => simp
      | succ k =>
          rw [if_neg (Nat.succ_ne_zero k)]
          split_ifs with hvalid hid
          · rw [Nat.succ_sub_one, List.take_succ_cons,
              parseTleGroups_eq_take rest k]
          · exact parseTleGroups_eq_take rest (k + 1)
          · exact parseTleGroups_eq_take rest (k + 1)

/-- Every record produced by the uncapped scan satisfies the parse
invariants. -/
theorem parseTleGroupsAll_valid :
    ∀ (lines : List (List Char)) (r : TleData),
      r ∈ parseTleGroupsAll lines → validTleRecord r
  | nameRaw :: l1Raw :: l2Raw :: rest, r => by
      simp only [parseTleGroupsAll]
      split_ifs with hvalid hid
      · intro hr
        rcases List.mem_cons.mp hr with rfl | hr'
        · simp only [Bool.and_eq_true] at hvalid hid
          obtain ⟨⟨⟨⟨hname, h1⟩, h2⟩, hp1⟩, hp2⟩ := hvalid
          obtain ⟨hlen, hdig⟩ := hid
          simp only [validTleRecord]
          exact ⟨ne_nil_of_not_isEmpty hname, ne_nil_of_not_isEmpty h1,
            ne_nil_of_not_isEmpty h2, hp1, hp2,
            List.length_pos.mp (of_decide_eq_true hlen), hdig⟩
        · exact parseTleGroupsAll_valid rest r hr'
      · exact parseTleGroupsAll_valid rest r
      · exact parseTleGroupsAll_valid rest r
  | [], r => by intro h; simp [parseTleGroupsAll] at h
  | [a], r => by intro h; simp [parseTleGroupsAll] at h
  | [a, b], r => by intro h; simp [parseTleGroupsAll] at h

/-- Flattening distributes over cons. -/
theorem flattenGroups_cons (g : TleGroup) (gs : List TleGroup) :
    flattenGroups (g :: gs) = g.1 :: g.2.1 :: g.2.2 :: flattenGroups gs := rfl

/-- C6: the parse returns at most `count` records, is the order-preserving
prefix of the uncapped scan, every record satisfies the line-prefix and
catalog-id invariants, and parsing is deterministic. -/
theorem tle_parse_contract (text : List Char) (count : Nat) :
    (parseFirstNTleData text count).length ≤ count ∧
    parseFirstNTleData text count =
      (parseTleGroupsAll (jsSplitLines text)).take count ∧
    (∀ r ∈ parseFirstNTleData text count, validTleRecord r) ∧
    parseFirstNTleData text count = parseFirstNTleData text count := by
  refine ⟨?_, parseTleGroups_eq_take _ _, ?_, rfl⟩
  · rw [parseFirstNTleData, parseTleGroups_eq_take, List.length_take]
    exact min_le_left _ _
  · intro r hr
    rw [parseFirstNTleData, parseTleGroups_eq_take] at hr
    exact parseTleGroupsAll_valid _ r (List.take_subset _ _ hr)

/-- C7: empty input parses to the empty result, and N well-formed groups
followed by one or two trailing lines parse to exactly the N expected
records (the truncated final group is dropped); the parser is a total
function, so it never throws. -/
theorem tle_parse_robust :
    (∀ count : Nat, parseFirstNTleData [] count = []) ∧
    (∀ (gs : List TleGroup) (trailing : List (List Char)) (count : Nat),
      (∀ g ∈ gs, wellFormedGroup g) →
      (trailing.length = 1 ∨ trailing.length = 2) →
      gs.length ≤ count →
      parseTleGroups (flattenGroups gs ++ trailing) count = gs.map groupRecord) := by
  constructor
  · intro count
    rfl
  · intro gs
    induction gs with
    | nil =>
        intro trailing count _ htr _
        simp only [flattenGroups, List.flatMap_nil, List.nil_append, List.map_nil]
        exact parseTleGroups_short trailing count (by rcases htr with h | h <;> omega)
    | cons g gs ih =>
        intro trailing count hwf htr hcap
        cases count with
        | zero => exact absurd hcap (by simp)
        | succ k =>
            obtain ⟨hn, h1, h2, hp1, hp2, hlen, hdig⟩ := hwf g (List.mem_cons_self g gs)
            rw [flattenGroups_cons]
            simp only [List.cons_append, List.map_cons]
            simp only [parseTleGroups]
            rw [if_neg (Nat.succ_ne_zero k)]
            rw [if_pos (by
              simp only [Bool.and_eq_true]
              exact ⟨⟨⟨⟨not_isEmpty_of_ne_nil hn, not_isEmpty_of_ne_nil h1⟩,
                not_isEmpty_of_ne_nil h2⟩, hp1⟩, hp2⟩)]
            rw [if_pos (by
              simp only [Bool.and_eq_true]
              exact ⟨decide_eq_true hlen, hdig⟩)]
            rw [Nat.succ_sub_one]
            exact congrArg (List.cons _)
              (ih trailing k (fun x hx => hwf x (List.mem_cons_of_mem g hx)) htr
                (Nat.succ_le_succ_iff.mp hcap))

/-- Witness for C7: one well-formed group plus one trailing line parses to
exactly that group's record. -/
theorem tle_parse_robust_witness :
    (∀ g ∈ [g0], wellFormedGroup g) ∧
    (["EXTRA".toList].length = 1 ∨ ["EXTRA".toList].length = 2) ∧
    [g0].length ≤ 5 ∧
    parseTleGroups (flattenGroups [g0] ++ ["EXTRA".toList]) 5 = [g0].map groupRecord :=
  ⟨by decide, by decide, by decide,
   tle_parse_robust.2 [g0] ["EXTRA".toList] 5 (by decide) (by decide) (by decide)⟩

/-- The code's orbit-filter match agrees with the spec's formula. -/
theorem orbitMatch_eq_spec (sat : SatState) (orbitF : OrbitFilter) :
    orbitMatch sat orbitF = orbitMatchSpec sat orbitF := by
  cases orbitF <;> cases h : sat.orbitType <;>
    simp [orbitMatch, orbitMatchSpec, orbitClassMatchesFilter, h]

/-- The code's category-filter match agrees with the spec's formula. -/
theorem typeMatch_eq_spec (sat : SatState) (typeF : TypeFilter) :
    typeMatch sat typeF = typeMatchSpec sat typeF := by
  cases typeF <;> cases h : sat.satType <;>
    simp [typeMatch, typeMatchSpec, h]

/-- C3: after a filter pass, `isVisible` equals the conjunction of the
spec-defined orbit match and category match, and the ALL/ALL filter pair
makes every entity visible. -/
theorem filter_correctness (sat : SatState) (orbitF : OrbitFilter) (typeF : TypeFilter) :
    (applyFilterSat orbitF typeF sat).isVisible =
      (orbitMatchSpec sat orbitF && typeMatchSpec sat typeF) ∧
    (applyFilterSat OrbitFilter.ALL TypeFilter.ALL sat).isVisible = true := by
  constructor
  · show (orbitMatch sat orbitF && typeMatch sat typeF) = _
    rw [orbitMatch_eq_spec, typeMatch_eq_spec]
  · show (orbitMatch sat .ALL && typeMatch sat .ALL) = true
    simp [orbitMatch, typeMatch]

/-- C1 counterexample: an entity hidden by a decay report on one tick is made
visible again by the next tick's filter pass, and the propagation guard
passes again — decay is not permanent in the code. -/
theorem decay_resurrection_cex :
    (tickSat OrbitFilter.ALL TypeFilter.ALL PropResult.decayError sampleSat).isVisible
        = false ∧
    (tickSat OrbitFilter.ALL TypeFilter.ALL PropResult.decayError sampleSat).meshVisible
        = false ∧
    (applyFilterSat OrbitFilter.ALL TypeFilter.ALL
        (tickSat OrbitFilter.ALL TypeFilter.ALL PropResult.decayError sampleSat)).isVisible
        = true ∧
    propagationAttempted
        (applyFilterSat OrbitFilter.ALL TypeFilter.ALL
          (tickSat OrbitFilter.ALL TypeFilter.ALL PropResult.decayError sampleSat))
        = true := by
  norm_num [tickSat, applyFilterSat, updateSatellitePosition, sampleSat, lerp,
    orbitMatch, typeMatch, orbitClassMatchesFilter, propagationAttempted]

/-- C1 amended: a decay report hides the entity for the remainder of its
tick, but nothing records the decay: any later filter pass whose filters
match the entity (and any nonnegative opacity) makes it visible again and
re-enables the propagation guard. -/
theorem decay_not_permanent_amended :
    (∀ sat : SatState, propagationAttempted sat = true →
      (updateSatellitePosition PropResult.decayError sat).isVisible = false ∧
      (updateSatellitePosition PropResult.decayError sat).meshVisible = false) ∧
    (∀ (sat : SatState) (orbitF : OrbitFilter) (typeF : TypeFilter),
      orbitMatch sat orbitF = true → typeMatch sat typeF = true →
      0 ≤ sat.meshOpacity →
      (applyFilterSat orbitF typeF sat).isVisible = true ∧
      propagationAttempted (applyFilterSat orbitF typeF sat) = true) := by
  constructor
  · intro sat h
    rw [propagationAttempted, Bool.and_eq_true] at h
    simp [updateSatellitePosition, h.1, h.2]
  · intro sat orbitF typeF hom htm hop
    have hvis : (applyFilterSat orbitF typeF sat).isVisible = true := by
      show (orbitMatch sat orbitF && typeMatch sat typeF) = true
      rw [hom, htm]; rfl
    have hcond : (orbitMatch sat orbitF && typeMatch sat typeF) = true := by
      rw [hom, htm]; rfl
    have hmesh : (applyFilterSat orbitF typeF sat).meshVisible = true := by
      simp only [applyFilterSat, hcond, eq_self_iff_true, if_true,
        decide_eq_true_eq, lerp]
      norm_num
      linarith
    exact ⟨hvis, by rw [propagationAttempted, Bool.and_eq_true]; exact ⟨hvis, hmesh⟩⟩

/-- Witness for the amended C1 at the freshly initialised entity and the
ALL/ALL filters. -/
theorem decay_not_permanent_witness :
    propagationAttempted sampleSat = true ∧
    orbitMatch sampleSat OrbitFilter.ALL = true ∧
    typeMatch sampleSat TypeFilter.ALL = true ∧
    0 ≤ sampleSat.meshOpacity ∧
    ((updateSatellitePosition PropResult.decayError sampleSat).isVisible = false ∧
     (updateSatellitePosition PropResult.decayError sampleSat).meshVisible = false) ∧
    ((applyFilterSat OrbitFilter.ALL TypeFilter.ALL sampleSat).isVisible = true ∧
     propagationAttempted (applyFilterSat OrbitFilter.ALL TypeFilter.ALL sampleSat)
       = true) :=
  ⟨rfl, rfl, rfl, by norm_num [sampleSat],
   decay_not_permanent_amended.1 sampleSat rfl,
   decay_not_permanent_amended.2 sampleSat OrbitFilter.ALL TypeFilter.ALL rfl rfl
     (by norm_num [sampleSat])⟩

/-- C2 counterexample: an entity hidden by the active filters (a LEO entity
under the GEO filter) is skipped by the position update — the propagator is
not called for it, its state is unchanged, and `currentLatRad` stays
unset even when a successful propagation result is available. -/
theorem hidden_entity_skipped_cex :
    propagationAttempted (applyFilterSat OrbitFilter.GEO TypeFilter.ALL sampleSat)
      = false ∧
    tickSat OrbitFilter.GEO TypeFilter.ALL (PropResult.success 1 2 3) sampleSat =
      applyFilterSat OrbitFilter.GEO TypeFilter.ALL sampleSat ∧
    (tickSat OrbitFilter.GEO TypeFilter.ALL (PropResult.success 1 2 3)
      sampleSat).currentLatRad = none :=
  ⟨rfl, rfl, rfl⟩

/-- C2 amended: the propagator is invoked exactly for the entities that pass
the guard `isVisible && mesh.visible` after the tick's filter pass; skipped
entities are unchanged, and on success the guard-passing entity's
latitude/longitude and position are updated. -/
theorem propagation_guard_amended (sat : SatState) (orbitF : OrbitFilter)
    (typeF : TypeFilter) :
    (∀ result : PropResult,
      propagationAttempted (applyFilterSat orbitF typeF sat) = false →
      tickSat orbitF typeF result sat = applyFilterSat orbitF typeF sat) ∧
    (∀ lat lon h : ℚ,
      propagationAttempted (applyFilterSat orbitF typeF sat) = true →
      (tickSat orbitF typeF (PropResult.success lat lon h) sat).currentLatRad
          = some lat ∧
      (tickSat orbitF typeF (PropResult.success lat lon h) sat).currentLonRad
          = some lon ∧
      (tickSat orbitF typeF (PropResult.success lat lon h) sat).position
          = some (lat, lon, h)) := by
  constructor
  · intro result hfalse
    simp only [propagationAttempted] at hfalse
    simp only [tickSat, updateSatellitePosition]
    cases hv : (applyFilterSat orbitF typeF sat).isVisible <;>
      cases hm : (applyFilterSat orbitF typeF sat).meshVisible <;>
      simp_all
  · intro lat lon h htrue
    simp only [propagationAttempted, Bool.and_eq_true] at htrue
    simp only [tickSat, updateSatellitePosition, htrue.1, htrue.2]
    simp

/-- Witness for the amended C2: the hidden LEO entity is skipped under the
GEO filter; under ALL/ALL the guard passes and a success result updates the
recorded coordinates. -/
theorem propagation_guard_witness :
    propagationAttempted (applyFilterSat OrbitFilter.GEO TypeFilter.ALL sampleSat)
      = false ∧
    tickSat OrbitFilter.GEO TypeFilter.ALL PropResult.otherError sampleSat =
      applyFilterSat OrbitFilter.GEO TypeFilter.ALL sampleSat ∧
    propagationAttempted (applyFilterSat OrbitFilter.ALL TypeFilter.ALL sampleSat)
      = true ∧
    (tickSat OrbitFilter.ALL TypeFilter.ALL (PropResult.success 1 2 3)
      sampleSat).currentLatRad = some 1 ∧
    (tickSat OrbitFilter.ALL TypeFilter.ALL (PropResult.success 1 2 3)
      sampleSat).currentLonRad = some 2 ∧
    (tickSat OrbitFilter.ALL TypeFilter.ALL (PropResult.success 1 2 3)
      sampleSat).position = some (1, 2, 3) := by
  have hfalse : propagationAttempted
      (applyFilterSat OrbitFilter.GEO TypeFilter.ALL sampleSat) = false := rfl
  have htrue : propagationAttempted
      (applyFilterSat OrbitFilter.ALL TypeFilter.ALL sampleSat) = true := by
    norm_num [propagationAttempted, applyFilterSat, sampleSat, lerp, orbitMatch,
      typeMatch]
  obtain ⟨h1, h2, h3⟩ :=
    (propagation_guard_amended sampleSat OrbitFilter.ALL TypeFilter.ALL).2 1 2 3 htrue
  exact ⟨hfalse,
    (propagation_guard_amended sampleSat OrbitFilter.GEO TypeFilter.ALL).1
      PropResult.otherError hfalse,
    htrue, h1, h2, h3⟩

/-- One smoothing step contracts the distance to the target by 9/10. -/
theorem opacityStep_sub (t o : ℚ) :
    opacityStep t o - t = (9 / 10) * (o - t) := by
  simp only [opacityStep, lerp]
  ring_nf

/-- One smoothing step keeps the opacity inside `[0, 1]` when the target is
inside `[0, 1]`. -/
theorem opacityStep_bounds (t o : ℚ) (ht0 : 0 ≤ t) (ht1 : t ≤ 1)
    (h0 : 0 ≤ o) (h1 : o ≤ 1) :
    0 ≤ opacityStep t o ∧ opacityStep t o ≤ 1 := by
  simp only [opacityStep, lerp]
  constructor <;> nlinarith

/-- Iterated smoothing stays inside `[0, 1]`. -/
theorem opacityIter_bounds (t : ℚ) (ht0 : 0 ≤ t) (ht1 : t ≤ 1) :
    ∀ (k : Nat) (o : ℚ), 0 ≤ o → o ≤ 1 →
      0 ≤ opacityIter t k o ∧ opacityIter t k o ≤ 1
  | 0, o, h0, h1 => ⟨h0, h1⟩
  | k + 1, o, h0, h1 => by
      rw [opacityIter]
      have hs := opacityStep_bounds t o ht0 ht1 h0 h1
      exact opacityIter_bounds t ht0 ht1 k (opacityStep t o) hs.1 hs.2

/-- Distance to the target after `k` smoothing steps. -/
theorem opacityIter_dist (t : ℚ) :
    ∀ (k : Nat) (o : ℚ), opacityIter t k o - t = (9 / 10) ^ k * (o - t)
  | 0, o => by simp [opacityIter]
  | k + 1, o => by
      rw [opacityIter, opacityIter_dist t k (opacityStep t o), opacityStep_sub]
      ring

/-- C8: starting from any opacity in `[0, 1]` and smoothing toward any
constant target in `[0, 1]` with factor `0.1` per tick keeps the opacity in
`[0, 1]` forever and brings it within `0.01` of the target from tick 44 on;
the per-tick mesh-opacity update of `applyFilters` is exactly this smoothing
step with target 1 when visible and 0 otherwise. -/
theorem opacity_convergence (o t : ℚ) (ho0 : 0 ≤ o) (ho1 : o ≤ 1)
    (ht0 : 0 ≤ t) (ht1 : t ≤ 1) :
    (∀ k : Nat, 0 ≤ opacityIter t k o ∧ opacityIter t k o ≤ 1) ∧
    (∀ k : Nat, 44 ≤ k → |opacityIter t k o - t| < 0.01) ∧
    (∀ (sat : SatState) (orbitF : OrbitFilter) (typeF : TypeFilter),
      (applyFilterSat orbitF typeF sat).meshOpacity =
        opacityStep
          (if (applyFilterSat orbitF typeF sat).isVisible then 1.0 else 0.0)
          sat.meshOpacity) := by
  refine ⟨fun k => opacityIter_bounds t ht0 ht1 k o ho0 ho1, fun k hk => ?_,
    fun sat orbitF typeF => rfl⟩
  rw [opacityIter_dist, abs_mul, abs_pow]
  have hd : |o - t| ≤ 1 := abs_le.mpr ⟨by linarith, by linarith⟩
  have hpow : |(9 / 10 : ℚ)| ^ k ≤ (9 / 10) ^ 44 := by
    rw [abs_of_pos (by norm_num : (0 : ℚ) < 9 / 10)]
    exact pow_le_pow_of_le_one (by norm_num) (by norm_num) hk
  calc |(9 / 10 : ℚ)| ^ k * |o - t| ≤ (9 / 10) ^ 44 * 1 :=
        mul_le_mul hpow hd (abs_nonneg _) (by positivity)
    _ < 0.01 := by norm_num

/-- Witness for C8: starting at opacity 0 with target 1, tick 44 is within
0.01 of the target. -/
theorem opacity_convergence_witness :
    (0 : ℚ) ≤ 0 ∧ (0 : ℚ) ≤ 1 ∧ (0 : ℚ) ≤ 1 ∧ (1 : ℚ) ≤ 1 ∧
    |opacityIter 1 44 0 - 1| < 0.01 :=
  ⟨le_refl 0, by norm_num, by norm_num, le_refl 1,
   (opacity_convergence 0 1 (le_refl 0) (by norm_num) (by norm_num)
     (le_refl 1)).2.1 44 (le_refl 44)⟩

/-- A mesh flagged visible by a filter pass has opacity above `0.01`. -/
theorem applyFilterSat_meshVisible_opacity (orbitF : OrbitFilter) (typeF : TypeFilter)
    (sat : SatState) (h : (applyFilterSat orbitF typeF sat).meshVisible = true) :
    0.01 < (applyFilterSat orbitF typeF sat).meshOpacity :=
  of_decide_eq_true h

/-- C9 counterexample: an entity whose mesh opacity has dropped to `0.03` —
below the claimed `0.05` epsilon — is still flagged visible (the code's
threshold is `0.01`) and is returned by the picking raycast when the ray
hits it. -/
theorem picking_epsilon_cex :
    dimSat.meshOpacity < 0.05 ∧ (0.01 : ℚ) < dimSat.meshOpacity ∧
    onClick (fun _ => true) [dimSat] = some dimSat := by
  have hvisfalse : (orbitMatch { sampleSat with meshOpacity := 1 / 30 }
      OrbitFilter.GEO && typeMatch { sampleSat with meshOpacity := 1 / 30 }
      TypeFilter.ALL) = false := by decide
  have hop : dimSat.meshOpacity = 3 / 100 := by
    simp only [dimSat, applyFilterSat, hvisfalse, Bool.false_eq_true, if_false]
    norm_num [lerp, sampleSat]
  have hvis : dimSat.meshVisible = true := by
    simp only [dimSat, applyFilterSat, hvisfalse, Bool.false_eq_true, if_false]
    rw [decide_eq_true_eq]
    norm_num [lerp, sampleSat]
  refine ⟨by rw [hop]; norm_num, by rw [hop]; norm_num, ?_⟩
  rw [onClick, raycastPick]
  simp [hvis]

/-- C9 amended: the picking operation only ever returns an entity whose mesh
is flagged visible, which after a filter pass means its opacity exceeds the
code's epsilon `0.01` (not `0.05`); the returned entity was actually hit,
and nothing is returned when the ray hits no candidate. -/
theorem picking_epsilon_amended :
    (∀ (hit : SatState → Bool) (sats : List SatState) (orbitF : OrbitFilter)
        (typeF : TypeFilter) (s : SatState),
      onClick hit (applyFilters sats orbitF typeF) = some s →
      s.meshVisible = true ∧ 0.01 < s.meshOpacity ∧ hit s = true) ∧
    (∀ (hit : SatState → Bool) (sats : List SatState),
      (∀ s ∈ sats, hit s = false) → onClick hit sats = none) := by
  constructor
  · intro hit sats orbitF typeF s hfind
    rw [onClick, raycastPick] at hfind
    have hhit : hit s = true := List.find?_some hfind
    have hmemf : s ∈ (applyFilters sats orbitF typeF).filter
        (fun x => x.meshVisible) := List.mem_of_find?_eq_some hfind
    rw [List.mem_filter] at hmemf
    obtain ⟨hmem, hvisible⟩ := hmemf
    rw [applyFilters, List.mem_map] at hmem
    obtain ⟨s0, _, rfl⟩ := hmem
    exact ⟨hvisible, applyFilterSat_meshVisible_opacity orbitF typeF s0 hvisible, hhit⟩
  · intro hit sats hnone
    rw [onClick, raycastPick, List.find?_eq_none]
    intro x hx
    have hx' := hnone x (List.mem_filter.mp hx).1
    simp [hx']

/-- Witness for the amended C9: a concrete pick on a one-entity registry
returns that entity with a visible mesh and opacity above `0.01`, and an
empty hit set yields no click event. -/
theorem picking_epsilon_witness :
    onClick (fun _ => true)
        (applyFilters [{ sampleSat with meshOpacity := 1 / 30 }] OrbitFilter.GEO
          TypeFilter.ALL) = some dimSat ∧
    dimSat.meshVisible = true ∧ (0.01 : ℚ) < dimSat.meshOpacity ∧
    onClick (fun _ => false) [sampleSat] = none := by
  have hvisfalse : (orbitMatch { sampleSat with meshOpacity := 1 / 30 }
      OrbitFilter.GEO && typeMatch { sampleSat with meshOpacity := 1 / 30 }
      TypeFilter.ALL) = false := by decide
  have hvis : dimSat.meshVisible = true := by
    simp only [dimSat, applyFilterSat, hvisfalse, Bool.false_eq_true, if_false]
    rw [decide_eq_true_eq]
    norm_num [lerp, sampleSat]
  have hsome : onClick (fun _ => true)
      (applyFilters [{ sampleSat with meshOpacity := 1 / 30 }] OrbitFilter.GEO
        TypeFilter.ALL) = some dimSat := by
    have heq : applyFilters [{ sampleSat with meshOpacity := 1 / 30 }]
        OrbitFilter.GEO TypeFilter.ALL = [dimSat] := rfl
    rw [heq, onClick, raycastPick]
    simp [hvis]
  obtain ⟨h1, h2, _⟩ := picking_epsilon_amended.1 (fun _ => true)
    [{ sampleSat with meshOpacity := 1 / 30 }] OrbitFilter.GEO TypeFilter.ALL
    dimSat hsome
  exact ⟨hsome, h1, h2,
    picking_epsilon_amended.2 (fun _ => false) [sampleSat] (fun s _ => rfl)⟩
